import Mathlib

/-! Shallow embedding of `src/caffe2/operators/lstm_unit_op.h` (namespace
`caffe2::detail`): the forward LSTM step kernel `LSTMUnit`, the backward
kernel `LSTMUnitGradient`, and the scalar helpers `sigmoid` and `tanh`.

The numeric type `T` is kept generic over a `Field` together with an
explicit exponential `e : T → T` standing for the host `exp`, so that the
theorems hold for every instantiation in exact arithmetic; concrete-value
claims are instantiated at `ℝ` with `Real.exp`.

Buffers are flat maps `Nat → T`.  The per-sequence pointer advancement of
the source (`C_prev += D; X += 4 * D; C += D; H += D; ...` at the end of
each iteration of the batch loop) is modelled by the base offsets `D * n`
(for the `D`-wide buffers) and `4 * D * n` (for the packed gate buffers),
and each in-buffer read or write keeps the source's offset expression
(`d`, `1 * D + d`, `2 * D + d`, `3 * D + d`) intact after the base.
Each output buffer location is written exactly once, so the final buffer
contents are modelled as a function of the flat index `j`, decoded as
sequence `j / D` and feature `j % D` (and, for the packed 4·D gate
gradient buffer, sequence `j / (4 * D)`, gate slot `j % (4 * D) / D`,
feature `j % (4 * D) % D`). -/

namespace detail

/-- The scalar helper `sigmoid(x) = 1. / (1. + exp(-x))` of
lstm_unit_op.h, with the host exponential `e` passed explicitly. -/
def sigmoid {T : Type} [Field T] (e : T → T) (x : T) : T :=
  1 / (1 + e (-x))

/-- The scalar helper `tanh(x) = 2. * sigmoid(2. * x) - 1.` of
lstm_unit_op.h, defined through `sigmoid` exactly as in the source. -/
def tanh {T : Type} [Field T] (e : T → T) (x : T) : T :=
  2 * sigmoid e (2 * x) - 1

/-- One inner-loop iteration of `LSTMUnit`: the pair
`(H[D * n + d], C[D * n + d])` written for sequence `n` and feature `d`.
Mirrors lines 31-53 of lstm_unit_op.h: the frozen branch writes `H[d] = 0`
and `C[d] = C_prev[d]`; the valid branch computes `i, f, o, g` from the
packed gate block, `c = f * c_prev + i * g`, and `h = o * tanh(c)`. -/
def LSTMUnitElem {T : Type} [Field T] (e : T → T) (D : Nat) (t : Int)
    (C_prev X : Nat → T) (seqLengths : Nat → Int) (n d : Nat) : T × T :=
  if ¬ t < seqLengths n then
    (0, C_prev (D * n + d))
  else
    let i := sigmoid e (X (4 * D * n + d))
    let f := sigmoid e (X (4 * D * n + (1 * D + d)))
    let o := sigmoid e (X (4 * D * n + (2 * D + d)))
    let g := tanh e (X (4 * D * n + (3 * D + d)))
    let c_prev := C_prev (D * n + d)
    let c := f * c_prev + i * g
    let tanh_c := tanh e c
    (o * tanh_c, c)

/-- Final contents of the `C` output buffer of `LSTMUnit` at flat index
`j = D * n + d`. -/
def LSTMUnit_C {T : Type} [Field T] (e : T → T) (D : Nat) (t : Int)
    (C_prev X : Nat → T) (seqLengths : Nat → Int) : Nat → T :=
  fun j => (LSTMUnitElem e D t C_prev X seqLengths (j / D) (j % D)).2

/-- Final contents of the `H` output buffer of `LSTMUnit` at flat index
`j = D * n + d`. -/
def LSTMUnit_H {T : Type} [Field T] (e : T → T) (D : Nat) (t : Int)
    (C_prev X : Nat → T) (seqLengths : Nat → Int) : Nat → T :=
  fun j => (LSTMUnitElem e D t C_prev X seqLengths (j / D) (j % D)).1

/-- One inner-loop iteration of `LSTMUnitGradient`: the tuple
`(c_prev_diff, i_diff, f_diff, o_diff, g_diff)` written for sequence `n`
and feature `d`, at flat offsets `D * n + d` (previous-cell gradient) and
`4 * D * n + d`, `4 * D * n + (1 * D + d)`, `4 * D * n + (2 * D + d)`,
`4 * D * n + (3 * D + d)` (packed gate-gradient block).  Mirrors lines
71-109 of lstm_unit_op.h; note that the source reads `c = C[d]` from the
forward cell output and that the `H` input is never read. -/
def LSTMUnitGradientElem {T : Type} [Field T] (e : T → T) (D : Nat)
    (t : Int) (C_prev X : Nat → T) (seqLengths : Nat → Int)
    (C H C_diff H_diff : Nat → T) (n d : Nat) : T × T × T × T × T :=
  if ¬ t < seqLengths n then
    (C_diff (D * n + d), 0, 0, 0, 0)
  else
    let i := sigmoid e (X (4 * D * n + d))
    let f := sigmoid e (X (4 * D * n + (1 * D + d)))
    let o := sigmoid e (X (4 * D * n + (2 * D + d)))
    let g := tanh e (X (4 * D * n + (3 * D + d)))
    let c_prev := C_prev (D * n + d)
    let c := C (D * n + d)
    let tanh_c := tanh e c
    let c_term_diff :=
      C_diff (D * n + d) + H_diff (D * n + d) * o * (1 - tanh_c * tanh_c)
    (c_term_diff * f,
      c_term_diff * g * i * (1 - i),
      c_term_diff * c_prev * f * (1 - f),
      H_diff (D * n + d) * tanh_c * o * (1 - o),
      c_term_diff * i * (1 - g * g))

/-- Final contents of the `C_prev_diff` output buffer of
`LSTMUnitGradient` at flat index `j = D * n + d`. -/
def LSTMUnitGradient_C_prev_diff {T : Type} [Field T] (e : T → T)
    (D : Nat) (t : Int) (C_prev X : Nat → T) (seqLengths : Nat → Int)
    (C H C_diff H_diff : Nat → T) : Nat → T :=
  fun j =>
    (LSTMUnitGradientElem e D t C_prev X seqLengths C H C_diff H_diff
      (j / D) (j % D)).1

/-- Final contents of the packed `X_diff` output buffer of
`LSTMUnitGradient` at flat index `j = 4 * D * n + (q * D + d)` with gate
slot `q < 4`: slot 0 is `i_diff`, slot 1 is `f_diff`, slot 2 is `o_diff`,
slot 3 is `g_diff`, exactly the write offsets of lines 75-78. -/
def LSTMUnitGradient_X_diff {T : Type} [Field T] (e : T → T)
    (D : Nat) (t : Int) (C_prev X : Nat → T) (seqLengths : Nat → Int)
    (C H C_diff H_diff : Nat → T) : Nat → T :=
  fun j =>
    let r := LSTMUnitGradientElem e D t C_prev X seqLengths C H C_diff
      H_diff (j / (4 * D)) (j % (4 * D) % D)
    let q := j % (4 * D) / D
    if q = 0 then r.2.1
    else if q = 1 then r.2.2.1
    else if q = 2 then r.2.2.2.1
    else r.2.2.2.2

/-- Variant of the backward inner loop written from the spec's words for
the refinement comparison of claim C5: identical to
`LSTMUnitGradientElem` except that `c` is recomputed as
`f * c_prev + i * g` instead of being read from the forward cell output
`C` (which this variant therefore does not take). -/
def LSTMUnitGradientElemRecompute {T : Type} [Field T] (e : T → T)
    (D : Nat) (t : Int) (C_prev X : Nat → T) (seqLengths : Nat → Int)
    (C_diff H_diff : Nat → T) (n d : Nat) : T × T × T × T × T :=
  if ¬ t < seqLengths n then
    (C_diff (D * n + d), 0, 0, 0, 0)
  else
    let i := sigmoid e (X (4 * D * n + d))
    let f := sigmoid e (X (4 * D * n + (1 * D + d)))
    let o := sigmoid e (X (4 * D * n + (2 * D + d)))
    let g := tanh e (X (4 * D * n + (3 * D + d)))
    let c_prev := C_prev (D * n + d)
    let c := f * c_prev + i * g
    let tanh_c := tanh e c
    let c_term_diff :=
      C_diff (D * n + d) + H_diff (D * n + d) * o * (1 - tanh_c * tanh_c)
    (c_term_diff * f,
      c_term_diff * g * i * (1 - i),
      c_term_diff * c_prev * f * (1 - f),
      H_diff (D * n + d) * tanh_c * o * (1 - o),
      c_term_diff * i * (1 - g * g))

end detail

open detail

/-- Decoding a flat index `D * n + r` with `r < D`: the sequence part. -/
lemma flat_div (D n r : Nat) (hr : r < D) : (D * n + r) / D = n := by
  rw [Nat.add_comm, Nat.add_mul_div_left r n
    (Nat.lt_of_le_of_lt (Nat.zero_le r) hr), Nat.div_eq_of_lt hr,
    Nat.zero_add]

/-- Decoding a flat index `D * n + r` with `r < D`: the offset part. -/
lemma flat_mod (D n r : Nat) (hr : r < D) : (D * n + r) % D = r := by
  rw [Nat.add_comm, Nat.add_mul_mod_self_left, Nat.mod_eq_of_lt hr]

/-- Decoding a gate-block offset `q * D + d` with `d < D`: the offset. -/
lemma gate_mod (D q d : Nat) (hd : d < D) : (q * D + d) % D = d := by
  rw [Nat.mul_comm]
  exact flat_mod D q d hd

/-- Decoding a gate-block offset `q * D + d` with `d < D`: the slot. -/
lemma gate_div (D q d : Nat) (hd : d < D) : (q * D + d) / D = q := by
  rw [Nat.mul_comm]
  exact flat_div D q d hd

/-- Valid branch of the forward inner loop, fully reduced. -/
lemma LSTMUnitElem_valid {T : Type} [Field T] (e : T → T) (D : Nat)
    (t : Int) (C_prev X : Nat → T) (seqLengths : Nat → Int) (n d : Nat)
    (hv : t < seqLengths n) :
    LSTMUnitElem e D t C_prev X seqLengths n d =
      (sigmoid e (X (4 * D * n + (2 * D + d))) *
          tanh e (sigmoid e (X (4 * D * n + (1 * D + d))) *
              C_prev (D * n + d) +
            sigmoid e (X (4 * D * n + d)) *
              tanh e (X (4 * D * n + (3 * D + d)))),
        sigmoid e (X (4 * D * n + (1 * D + d))) * C_prev (D * n + d) +
          sigmoid e (X (4 * D * n + d)) *
            tanh e (X (4 * D * n + (3 * D + d)))) := by
  simp [LSTMUnitElem, hv]

/-- Frozen branch of the forward inner loop, fully reduced. -/
lemma LSTMUnitElem_frozen {T : Type} [Field T] (e : T → T) (D : Nat)
    (t : Int) (C_prev X : Nat → T) (seqLengths : Nat → Int) (n d : Nat)
    (hv : ¬ t < seqLengths n) :
    LSTMUnitElem e D t C_prev X seqLengths n d = (0, C_prev (D * n + d)) := by
  simp [LSTMUnitElem, hv]

/-- Valid branch of the backward inner loop, fully reduced. -/
lemma LSTMUnitGradientElem_valid {T : Type} [Field T] (e : T → T)
    (D : Nat) (t : Int) (C_prev X : Nat → T) (seqLengths : Nat → Int)
    (C H C_diff H_diff : Nat → T) (n d : Nat) (hv : t < seqLengths n) :
    LSTMUnitGradientElem e D t C_prev X seqLengths C H C_diff H_diff n d =
      ((C_diff (D * n + d) + H_diff (D * n + d) *
          sigmoid e (X (4 * D * n + (2 * D + d))) *
          (1 - tanh e (C (D * n + d)) * tanh e (C (D * n + d)))) *
        sigmoid e (X (4 * D * n + (1 * D + d))),
       (C_diff (D * n + d) + H_diff (D * n + d) *
          sigmoid e (X (4 * D * n + (2 * D + d))) *
          (1 - tanh e (C (D * n + d)) * tanh e (C (D * n + d)))) *
        tanh e (X (4 * D * n + (3 * D + d))) *
        sigmoid e (X (4 * D * n + d)) *
        (1 - sigmoid e (X (4 * D * n + d))),
       (C_diff (D * n + d) + H_diff (D * n + d) *
          sigmoid e (X (4 * D * n + (2 * D + d))) *
          (1 - tanh e (C (D * n + d)) * tanh e (C (D * n + d)))) *
        C_prev (D * n + d) *
        sigmoid e (X (4 * D * n + (1 * D + d))) *
        (1 - sigmoid e (X (4 * D * n + (1 * D + d)))),
       H_diff (D * n + d) * tanh e (C (D * n + d)) *
        sigmoid e (X (4 * D * n + (2 * D + d))) *
        (1 - sigmoid e (X (4 * D * n + (2 * D + d)))),
       (C_diff (D * n + d) + H_diff (D * n + d) *
          sigmoid e (X (4 * D * n + (2 * D + d))) *
          (1 - tanh e (C (D * n + d)) * tanh e (C (D * n + d)))) *
        sigmoid e (X (4 * D * n + d)) *
        (1 - tanh e (X (4 * D * n + (3 * D + d))) *
          tanh e (X (4 * D * n + (3 * D + d))))) := by
  simp [LSTMUnitGradientElem, hv]

/-- Frozen branch of the backward inner loop, fully reduced. -/
lemma LSTMUnitGradientElem_frozen {T : Type} [Field T] (e : T → T)
    (D : Nat) (t : Int) (C_prev X : Nat → T) (seqLengths : Nat → Int)
    (C H C_diff H_diff : Nat → T) (n d : Nat) (hv : ¬ t < seqLengths n) :
    LSTMUnitGradientElem e D t C_prev X seqLengths C H C_diff H_diff n d =
      (C_diff (D * n + d), 0, 0, 0, 0) := by
  simp [LSTMUnitGradientElem, hv]

/-- Localizing the flat `C` output at `D * n + d` to the inner-loop pair. -/
lemma LSTMUnit_C_at {T : Type} [Field T] (e : T → T) (D : Nat) (t : Int)
    (C_prev X : Nat → T) (seqLengths : Nat → Int) (n d : Nat)
    (hd : d < D) :
    LSTMUnit_C e D t C_prev X seqLengths (D * n + d) =
      (LSTMUnitElem e D t C_prev X seqLengths n d).2 := by
  unfold LSTMUnit_C
  rw [flat_div D n d hd, flat_mod D n d hd]

/-- Localizing the flat `H` output at `D * n + d` to the inner-loop pair. -/
lemma LSTMUnit_H_at {T : Type} [Field T] (e : T → T) (D : Nat) (t : Int)
    (C_prev X : Nat → T) (seqLengths : Nat → Int) (n d : Nat)
    (hd : d < D) :
    LSTMUnit_H e D t C_prev X seqLengths (D * n + d) =
      (LSTMUnitElem e D t C_prev X seqLengths n d).1 := by
  unfold LSTMUnit_H
  rw [flat_div D n d hd, flat_mod D n d hd]

/-- Localizing the flat `C_prev_diff` output at `D * n + d`. -/
lemma LSTMUnitGradient_C_prev_diff_at {T : Type} [Field T] (e : T → T)
    (D : Nat) (t : Int) (C_prev X : Nat → T) (seqLengths : Nat → Int)
    (C H C_diff H_diff : Nat → T) (n d : Nat) (hd : d < D) :
    LSTMUnitGradient_C_prev_diff e D t C_prev X seqLengths C H C_diff
        H_diff (D * n + d) =
      (LSTMUnitGradientElem e D t C_prev X seqLengths C H C_diff H_diff
        n d).1 := by
  unfold LSTMUnitGradient_C_prev_diff
  rw [flat_div D n d hd, flat_mod D n d hd]

/-- Localizing the flat `X_diff` output at gate slot 0 (`i_diff`). -/
lemma LSTMUnitGradient_X_diff_at_i {T : Type} [Field T] (e : T → T)
    (D : Nat) (t : Int) (C_prev X : Nat → T) (seqLengths : Nat → Int)
    (C H C_diff H_diff : Nat → T) (n d : Nat) (hd : d < D) :
    LSTMUnitGradient_X_diff e D t C_prev X seqLengths C H C_diff H_diff
        (4 * D * n + d) =
      (LSTMUnitGradientElem e D t C_prev X seqLengths C H C_diff H_diff
        n d).2.1 := by
  unfold LSTMUnitGradient_X_diff
  rw [flat_div (4 * D) n d (by omega), flat_mod (4 * D) n d (by omega),
    Nat.mod_eq_of_lt hd, Nat.div_eq_of_lt hd]
  simp

/-- Localizing the flat `X_diff` output at gate slot 1 (`f_diff`). -/
lemma LSTMUnitGradient_X_diff_at_f {T : Type} [Field T] (e : T → T)
    (D : Nat) (t : Int) (C_prev X : Nat → T) (seqLengths : Nat → Int)
    (C H C_diff H_diff : Nat → T) (n d : Nat) (hd : d < D) :
    LSTMUnitGradient_X_diff e D t C_prev X seqLengths C H C_diff H_diff
        (4 * D * n + (1 * D + d)) =
      (LSTMUnitGradientElem e D t C_prev X seqLengths C H C_diff H_diff
        n d).2.2.1 := by
  unfold LSTMUnitGradient_X_diff
  rw [flat_div (4 * D) n (1 * D + d) (by omega),
    flat_mod (4 * D) n (1 * D + d) (by omega),
    gate_mod D 1 d hd, gate_div D 1 d hd]
  simp

/-- Localizing the flat `X_diff` output at gate slot 2 (`o_diff`). -/
lemma LSTMUnitGradient_X_diff_at_o {T : Type} [Field T] (e : T → T)
    (D : Nat) (t : Int) (C_prev X : Nat → T) (seqLengths : Nat → Int)
    (C H C_diff H_diff : Nat → T) (n d : Nat) (hd : d < D) :
    LSTMUnitGradient_X_diff e D t C_prev X seqLengths C H C_diff H_diff
        (4 * D * n + (2 * D + d)) =
      (LSTMUnitGradientElem e D t C_prev X seqLengths C H C_diff H_diff
        n d).2.2.2.1 := by
  unfold LSTMUnitGradient_X_diff
  rw [flat_div (4 * D) n (2 * D + d) (by omega),
    flat_mod (4 * D) n (2 * D + d) (by omega),
    gate_mod D 2 d hd, gate_div D 2 d hd]
  simp

/-- Localizing the flat `X_diff` output at gate slot 3 (`g_diff`). -/
lemma LSTMUnitGradient_X_diff_at_g {T : Type} [Field T] (e : T → T)
    (D : Nat) (t : Int) (C_prev X : Nat → T) (seqLengths : Nat → Int)
    (C H C_diff H_diff : Nat → T) (n d : Nat) (hd : d < D) :
    LSTMUnitGradient_X_diff e D t C_prev X seqLengths C H C_diff H_diff
        (4 * D * n + (3 * D + d)) =
      (LSTMUnitGradientElem e D t C_prev X seqLengths C H C_diff H_diff
        n d).2.2.2.2 := by
  unfold LSTMUnitGradient_X_diff
  rw [flat_div (4 * D) n (3 * D + d) (by omega),
    flat_mod (4 * D) n (3 * D + d) (by omega),
    gate_mod D 3 d hd, gate_div D 3 d hd]
  simp

/-- Claim C1: for every batch index n with t < seqLengths[n] and every
feature index d, the forward kernel computes i = sigmoid(X[n][d]),
f = sigmoid(X[n][D+d]), o = sigmoid(X[n][2D+d]), g = tanh(X[n][3D+d])
from the packed gate block and writes C[n][d] = f * C_prev[n][d] + i * g
and H[n][d] = o * tanh(C[n][d]). -/
theorem C1_forward_valid_formulas {T : Type} [Field T] (e : T → T)
    (D : Nat) (t : Int) (C_prev X : Nat → T) (seqLengths : Nat → Int)
    (n d : Nat) (hd : d < D) (hv : t < seqLengths n) :
    LSTMUnit_C e D t C_prev X seqLengths (D * n + d) =
      sigmoid e (X (4 * D * n + (1 * D + d))) * C_prev (D * n + d) +
        sigmoid e (X (4 * D * n + d)) *
          tanh e (X (4 * D * n + (3 * D + d))) ∧
    LSTMUnit_H e D t C_prev X seqLengths (D * n + d) =
      sigmoid e (X (4 * D * n + (2 * D + d))) *
        tanh e (LSTMUnit_C e D t C_prev X seqLengths (D * n + d)) := by
  rw [LSTMUnit_C_at e D t C_prev X seqLengths n d hd,
    LSTMUnit_H_at e D t C_prev X seqLengths n d hd,
    LSTMUnitElem_valid e D t C_prev X seqLengths n d hv]
  exact ⟨rfl, rfl⟩

/-- Concrete instantiation of claim C1 (D = 1, t = 0, seqLengths ≡ 1,
C_prev ≡ 2, gate pre-activations ≡ 0, over ℚ with identity standing for
the exponential), discharging both hypotheses. -/
theorem C1_forward_valid_formulas_witness :
    (0 : Nat) < 1 ∧ (0 : Int) < 1 ∧
    (LSTMUnit_C (fun x : ℚ => x) 1 0 (fun _ => 2) (fun _ => 0)
        (fun _ => 1) (1 * 0 + 0) =
      sigmoid (fun x : ℚ => x) 0 * 2 +
        sigmoid (fun x : ℚ => x) 0 * tanh (fun x : ℚ => x) 0 ∧
    LSTMUnit_H (fun x : ℚ => x) 1 0 (fun _ => 2) (fun _ => 0)
        (fun _ => 1) (1 * 0 + 0) =
      sigmoid (fun x : ℚ => x) 0 *
        tanh (fun x : ℚ => x)
          (LSTMUnit_C (fun x : ℚ => x) 1 0 (fun _ => 2) (fun _ => 0)
            (fun _ => 1) (1 * 0 + 0))) :=
  ⟨by decide, by decide,
    C1_forward_valid_formulas (fun x : ℚ => x) 1 0 (fun _ => 2)
      (fun _ => 0) (fun _ => 1) 0 0 (by decide) (by decide)⟩

/-- Claim C3: for every batch index n with t ≥ seqLengths[n] (including
negative seqLengths[n]) and every feature index d, the forward kernel
writes H[n][d] = 0 and C[n][d] = C_prev[n][d] exactly (frozen branch,
never an error). -/
theorem C3_forward_frozen_passthrough {T : Type} [Field T] (e : T → T)
    (D : Nat) (t : Int) (C_prev X : Nat → T) (seqLengths : Nat → Int)
    (n d : Nat) (hd : d < D) (hv : seqLengths n ≤ t) :
    LSTMUnit_H e D t C_prev X seqLengths (D * n + d) = 0 ∧
    LSTMUnit_C e D t C_prev X seqLengths (D * n + d) =
      C_prev (D * n + d) := by
  have hnv : ¬ t < seqLengths n := not_lt.mpr hv
  rw [LSTMUnit_H_at e D t C_prev X seqLengths n d hd,
    LSTMUnit_C_at e D t C_prev X seqLengths n d hd,
    LSTMUnitElem_frozen e D t C_prev X seqLengths n d hnv]
  exact ⟨rfl, rfl⟩

/-- Concrete instantiation of claim C3 with a negative sequence length
(seqLengths ≡ -3) and t = 0, discharging both hypotheses. -/
theorem C3_forward_frozen_passthrough_witness :
    (0 : Nat) < 1 ∧ (-3 : Int) ≤ 0 ∧
    (LSTMUnit_H (fun x : ℚ => x) 1 0 (fun _ => 5) (fun _ => 7)
        (fun _ => -3) (1 * 0 + 0) = 0 ∧
    LSTMUnit_C (fun x : ℚ => x) 1 0 (fun _ => 5) (fun _ => 7)
        (fun _ => -3) (1 * 0 + 0) = 5) :=
  ⟨by decide, by decide,
    C3_forward_frozen_passthrough (fun x : ℚ => x) 1 0 (fun _ => 5)
      (fun _ => 7) (fun _ => -3) 0 0 (by decide) (by decide)⟩

/-- Claim C7: the tanh helper satisfies tanh(x) = 2 * sigmoid(2 * x) - 1
with sigmoid(x) = 1 / (1 + exp(-x)), for every input x and every host
exponential; this is the single composite definition both kernels invoke
(both `LSTMUnitElem` and `LSTMUnitGradientElem` are defined through
`detail.tanh`). -/
theorem C7_tanh_via_sigmoid :
    ∀ (T : Type) [_inst : Field T] (e : T → T) (x : T),
      tanh e x = 2 * sigmoid e (2 * x) - 1 ∧
      sigmoid e x = 1 / (1 + e (-x)) := by
  intro T _ e x
  exact ⟨rfl, rfl⟩

/-- Claim C9: for N = 1, D = 1, t = 0, seqLengths = [1], C_prev = [0],
gate pre-activations [0, 0, 0, 0], LSTMUnit produces exactly C = [0] and
H = [0] (over ℝ with the real exponential: sigmoid(0) = 1/2 and
tanh(0) = 0). -/
theorem C9_example_scenario :
    sigmoid Real.exp (0 : ℝ) = 1 / 2 ∧
    tanh Real.exp (0 : ℝ) = 0 ∧
    LSTMUnit_C Real.exp 1 0 (fun _ => (0 : ℝ)) (fun _ => 0)
      (fun _ => 1) 0 = 0 ∧
    LSTMUnit_H Real.exp 1 0 (fun _ => (0 : ℝ)) (fun _ => 0)
      (fun _ => 1) 0 = 0 := by
  have hs : sigmoid Real.exp (0 : ℝ) = 1 / 2 := by
    norm_num [sigmoid, Real.exp_zero]
  have ht : tanh Real.exp (0 : ℝ) = 0 := by
    norm_num [tanh, sigmoid, Real.exp_zero]
  refine ⟨hs, ht, ?_, ?_⟩ <;>
    norm_num [LSTMUnit_C, LSTMUnit_H, LSTMUnitElem, hs, ht]

/-- Claim C10: the outputs of LSTMUnitGradient (C_prev_diff and X_diff)
are identical for any two invocations differing only in the contents of
the hidden-state input buffer H: the kernel never reads H. -/
theorem C10_gradient_ignores_H {T : Type} [Field T] (e : T → T)
    (D : Nat) (t : Int) (C_prev X : Nat → T) (seqLengths : Nat → Int)
    (C H1 H2 C_diff H_diff : Nat → T) :
    LSTMUnitGradient_C_prev_diff e D t C_prev X seqLengths C H1 C_diff
        H_diff =
      LSTMUnitGradient_C_prev_diff e D t C_prev X seqLengths C H2 C_diff
        H_diff ∧
    LSTMUnitGradient_X_diff e D t C_prev X seqLengths C H1 C_diff
        H_diff =
      LSTMUnitGradient_X_diff e D t C_prev X seqLengths C H2 C_diff
        H_diff :=
  ⟨rfl, rfl⟩

/-- Claim C2: for every batch index n with t < seqLengths[n] and every
feature index d, with i, f, o the sigmoids of the gate pre-activations,
g the tanh of the candidate pre-activation, tanh_c = tanh(c) for the cell
value c = C[n][d], and c_term = C_diff[n][d] + H_diff[n][d] * o *
(1 - tanh_c^2), the backward kernel writes C_prev_diff[n][d] = c_term * f
and, into the packed 4D gate-gradient layout, i_diff at offset 0 equal to
c_term * g * i * (1 - i), f_diff at offset D equal to
c_term * c_prev * f * (1 - f), o_diff at offset 2D equal to
H_diff[n][d] * tanh_c * o * (1 - o), and g_diff at offset 3D equal to
c_term * i * (1 - g * g). -/
theorem C2_backward_valid_formulas {T : Type} [Field T] (e : T → T)
    (D : Nat) (t : Int) (C_prev X : Nat → T) (seqLengths : Nat → Int)
    (C H C_diff H_diff : Nat → T) (n d : Nat)
    (hd : d < D) (hv : t < seqLengths n)
    (i f o g tanh_c c_term : T)
    (hi : i = sigmoid e (X (4 * D * n + d)))
    (hf : f = sigmoid e (X (4 * D * n + (1 * D + d))))
    (ho : o = sigmoid e (X (4 * D * n + (2 * D + d))))
    (hg : g = tanh e (X (4 * D * n + (3 * D + d))))
    (htc : tanh_c = tanh e (C (D * n + d)))
    (hct : c_term = C_diff (D * n + d) +
      H_diff (D * n + d) * o * (1 - tanh_c * tanh_c)) :
    LSTMUnitGradient_C_prev_diff e D t C_prev X seqLengths C H C_diff
        H_diff (D * n + d) = c_term * f ∧
    LSTMUnitGradient_X_diff e D t C_prev X seqLengths C H C_diff H_diff
        (4 * D * n + d) = c_term * g * i * (1 - i) ∧
    LSTMUnitGradient_X_diff e D t C_prev X seqLengths C H C_diff H_diff
        (4 * D * n + (1 * D + d)) =
      c_term * C_prev (D * n + d) * f * (1 - f) ∧
    LSTMUnitGradient_X_diff e D t C_prev X seqLengths C H C_diff H_diff
        (4 * D * n + (2 * D + d)) =
      H_diff (D * n + d) * tanh_c * o * (1 - o) ∧
    LSTMUnitGradient_X_diff e D t C_prev X seqLengths C H C_diff H_diff
        (4 * D * n + (3 * D + d)) = c_term * i * (1 - g * g) := by
  subst hi hf ho hg htc hct
  rw [LSTMUnitGradient_C_prev_diff_at e D t C_prev X seqLengths C H
      C_diff H_diff n d hd,
    LSTMUnitGradient_X_diff_at_i e D t C_prev X seqLengths C H C_diff
      H_diff n d hd,
    LSTMUnitGradient_X_diff_at_f e D t C_prev X seqLengths C H C_diff
      H_diff n d hd,
    LSTMUnitGradient_X_diff_at_o e D t C_prev X seqLengths C H C_diff
      H_diff n d hd,
    LSTMUnitGradient_X_diff_at_g e D t C_prev X seqLengths C H C_diff
      H_diff n d hd,
    LSTMUnitGradientElem_valid e D t C_prev X seqLengths C H C_diff
      H_diff n d hv]
  exact ⟨rfl, rfl, rfl, rfl, rfl⟩

/-- Concrete instantiation of claim C2 (D = 1, t = 0, seqLengths ≡ 1,
over ℚ with identity standing for the exponential), discharging every
hypothesis. -/
theorem C2_backward_valid_formulas_witness :
    (0 : Nat) < 1 ∧ (0 : Int) < 1 ∧
    sigmoid (fun x : ℚ => x) 0 = sigmoid (fun x : ℚ => x) 0 ∧
    tanh (fun x : ℚ => x) 3 = tanh (fun x : ℚ => x) 3 ∧
    (LSTMUnitGradient_C_prev_diff (fun x : ℚ => x) 1 0 (fun _ => 2)
        (fun _ => 0) (fun _ => 1) (fun _ => 3) (fun _ => 4) (fun _ => 5)
        (fun _ => 6) (1 * 0 + 0) =
      (5 + 6 * sigmoid (fun x : ℚ => x) 0 *
          (1 - tanh (fun x : ℚ => x) 3 * tanh (fun x : ℚ => x) 3)) *
        sigmoid (fun x : ℚ => x) 0 ∧
    LSTMUnitGradient_X_diff (fun x : ℚ => x) 1 0 (fun _ => 2)
        (fun _ => 0) (fun _ => 1) (fun _ => 3) (fun _ => 4) (fun _ => 5)
        (fun _ => 6) (4 * 1 * 0 + 0) =
      (5 + 6 * sigmoid (fun x : ℚ => x) 0 *
          (1 - tanh (fun x : ℚ => x) 3 * tanh (fun x : ℚ => x) 3)) *
        tanh (fun x : ℚ => x) 0 * sigmoid (fun x : ℚ => x) 0 *
        (1 - sigmoid (fun x : ℚ => x) 0) ∧
    LSTMUnitGradient_X_diff (fun x : ℚ => x) 1 0 (fun _ => 2)
        (fun _ => 0) (fun _ => 1) (fun _ => 3) (fun _ => 4) (fun _ => 5)
        (fun _ => 6) (4 * 1 * 0 + (1 * 1 + 0)) =
      (5 + 6 * sigmoid (fun x : ℚ => x) 0 *
          (1 - tanh (fun x : ℚ => x) 3 * tanh (fun x : ℚ => x) 3)) *
        2 * sigmoid (fun x : ℚ => x) 0 * (1 - sigmoid (fun x : ℚ => x) 0) ∧
    LSTMUnitGradient_X_diff (fun x : ℚ => x) 1 0 (fun _ => 2)
        (fun _ => 0) (fun _ => 1) (fun _ => 3) (fun _ => 4) (fun _ => 5)
        (fun _ => 6) (4 * 1 * 0 + (2 * 1 + 0)) =
      6 * tanh (fun x : ℚ => x) 3 * sigmoid (fun x : ℚ => x) 0 *
        (1 - sigmoid (fun x : ℚ => x) 0) ∧
    LSTMUnitGradient_X_diff (fun x : ℚ => x) 1 0 (fun _ => 2)
        (fun _ => 0) (fun _ => 1) (fun _ => 3) (fun _ => 4) (fun _ => 5)
        (fun _ => 6) (4 * 1 * 0 + (3 * 1 + 0)) =
      (5 + 6 * sigmoid (fun x : ℚ => x) 0 *
          (1 - tanh (fun x : ℚ => x) 3 * tanh (fun x : ℚ => x) 3)) *
        sigmoid (fun x : ℚ => x) 0 *
        (1 - tanh (fun x : ℚ => x) 0 * tanh (fun x : ℚ => x) 0)) :=
  ⟨by decide, by decide, rfl, rfl,
    C2_backward_valid_formulas (fun x : ℚ => x) 1 0 (fun _ => 2)
      (fun _ => 0) (fun _ => 1) (fun _ => 3) (fun _ => 4) (fun _ => 5)
      (fun _ => 6) 0 0 (by decide) (by decide)
      (sigmoid (fun x : ℚ => x) 0) (sigmoid (fun x : ℚ => x) 0)
      (sigmoid (fun x : ℚ => x) 0) (tanh (fun x : ℚ => x) 0)
      (tanh (fun x : ℚ => x) 3)
      (5 + 6 * sigmoid (fun x : ℚ => x) 0 *
        (1 - tanh (fun x : ℚ => x) 3 * tanh (fun x : ℚ => x) 3))
      rfl rfl rfl rfl rfl rfl⟩

/-- Claim C4: for every batch index n with t ≥ seqLengths[n] and every
feature index d, the backward kernel writes
C_prev_diff[n][d] = C_diff[n][d] exactly, and writes 0 into all four
gate-gradient slots (offsets 0, D, 2D, 3D) of X_diff. -/
theorem C4_backward_frozen_passthrough {T : Type} [Field T] (e : T → T)
    (D : Nat) (t : Int) (C_prev X : Nat → T) (seqLengths : Nat → Int)
    (C H C_diff H_diff : Nat → T) (n d : Nat)
    (hd : d < D) (hv : seqLengths n ≤ t) :
    LSTMUnitGradient_C_prev_diff e D t C_prev X seqLengths C H C_diff
        H_diff (D * n + d) = C_diff (D * n + d) ∧
    LSTMUnitGradient_X_diff e D t C_prev X seqLengths C H C_diff H_diff
        (4 * D * n + d) = 0 ∧
    LSTMUnitGradient_X_diff e D t C_prev X seqLengths C H C_diff H_diff
        (4 * D * n + (1 * D + d)) = 0 ∧
    LSTMUnitGradient_X_diff e D t C_prev X seqLengths C H C_diff H_diff
        (4 * D * n + (2 * D + d)) = 0 ∧
    LSTMUnitGradient_X_diff e D t C_prev X seqLengths C H C_diff H_diff
        (4 * D * n + (3 * D + d)) = 0 := by
  have hnv : ¬ t < seqLengths n := not_lt.mpr hv
  rw [LSTMUnitGradient_C_prev_diff_at e D t C_prev X seqLengths C H
      C_diff H_diff n d hd,
    LSTMUnitGradient_X_diff_at_i e D t C_prev X seqLengths C H C_diff
      H_diff n d hd,
    LSTMUnitGradient_X_diff_at_f e D t C_prev X seqLengths C H C_diff
      H_diff n d hd,
    LSTMUnitGradient_X_diff_at_o e D t C_prev X seqLengths C H C_diff
      H_diff n d hd,
    LSTMUnitGradient_X_diff_at_g e D t C_prev X seqLengths C H C_diff
      H_diff n d hd,
    LSTMUnitGradientElem_frozen e D t C_prev X seqLengths C H C_diff
      H_diff n d hnv]
  exact ⟨rfl, rfl, rfl, rfl, rfl⟩

/-- Concrete instantiation of claim C4 with t = 2 equal to the sequence
length (seqLengths ≡ 2), discharging both hypotheses. -/
theorem C4_backward_frozen_passthrough_witness :
    (0 : Nat) < 1 ∧ (2 : Int) ≤ 2 ∧
    (LSTMUnitGradient_C_prev_diff (fun x : ℚ => x) 1 2 (fun _ => 2)
        (fun _ => 0) (fun _ => 2) (fun _ => 3) (fun _ => 4) (fun _ => 5)
        (fun _ => 6) (1 * 0 + 0) = 5 ∧
    LSTMUnitGradient_X_diff (fun x : ℚ => x) 1 2 (fun _ => 2)
        (fun _ => 0) (fun _ => 2) (fun _ => 3) (fun _ => 4) (fun _ => 5)
        (fun _ => 6) (4 * 1 * 0 + 0) = 0 ∧
    LSTMUnitGradient_X_diff (fun x : ℚ => x) 1 2 (fun _ => 2)
        (fun _ => 0) (fun _ => 2) (fun _ => 3) (fun _ => 4) (fun _ => 5)
        (fun _ => 6) (4 * 1 * 0 + (1 * 1 + 0)) = 0 ∧
    LSTMUnitGradient_X_diff (fun x : ℚ => x) 1 2 (fun _ => 2)
        (fun _ => 0) (fun _ => 2) (fun _ => 3) (fun _ => 4) (fun _ => 5)
        (fun _ => 6) (4 * 1 * 0 + (2 * 1 + 0)) = 0 ∧
    LSTMUnitGradient_X_diff (fun x : ℚ => x) 1 2 (fun _ => 2)
        (fun _ => 0) (fun _ => 2) (fun _ => 3) (fun _ => 4) (fun _ => 5)
        (fun _ => 6) (4 * 1 * 0 + (3 * 1 + 0)) = 0) :=
  ⟨by decide, by decide,
    C4_backward_frozen_passthrough (fun x : ℚ => x) 1 2 (fun _ => 2)
      (fun _ => 0) (fun _ => 2) (fun _ => 3) (fun _ => 4) (fun _ => 5)
      (fun _ => 6) 0 0 (by decide) (by decide)⟩

/-- Claim C5 (amended): in the valid branch the backward kernel recomputes
i, f, o, g from the gate pre-activations, but reads the cell value c from
the cell-output input C[n][d] rather than recomputing it; its outputs
equal those of the variant that computes c as f * c_prev + i * g whenever
C[n][d] holds the forward LSTMUnit cell output for the same inputs. -/
theorem C5_recompute_equiv {T : Type} [Field T] (e : T → T) (D : Nat)
    (t : Int) (C_prev X : Nat → T) (seqLengths : Nat → Int)
    (C H C_diff H_diff : Nat → T) (n d : Nat)
    (hC : C (D * n + d) = (LSTMUnitElem e D t C_prev X seqLengths n d).2) :
    LSTMUnitGradientElem e D t C_prev X seqLengths C H C_diff H_diff n d =
      LSTMUnitGradientElemRecompute e D t C_prev X seqLengths C_diff
        H_diff n d := by
  by_cases hv : t < seqLengths n
  · rw [LSTMUnitElem_valid e D t C_prev X seqLengths n d hv] at hC
    simp [LSTMUnitGradientElem, LSTMUnitGradientElemRecompute, hv, hC]
  · simp [LSTMUnitGradientElem, LSTMUnitGradientElemRecompute, hv]

/-- Concrete instantiation of claim C5's amended statement: with all gate
pre-activations 0, C_prev ≡ 2 and C ≡ 3 = forward cell output (over ℚ
with identity standing for the exponential), the hypothesis holds and the
kernels agree. -/
theorem C5_recompute_equiv_witness :
    (fun _ : Nat => (3 : ℚ)) (1 * 0 + 0) =
      (LSTMUnitElem (fun x : ℚ => x) 1 0 (fun _ => 2) (fun _ => 0)
        (fun _ => 1) 0 0).2 ∧
    LSTMUnitGradientElem (fun x : ℚ => x) 1 0 (fun _ => 2) (fun _ => 0)
        (fun _ => 1) (fun _ => 3) (fun _ => 4) (fun _ => 5) (fun _ => 6)
        0 0 =
      LSTMUnitGradientElemRecompute (fun x : ℚ => x) 1 0 (fun _ => 2)
        (fun _ => 0) (fun _ => 1) (fun _ => 5) (fun _ => 6) 0 0 :=
  ⟨by norm_num [LSTMUnitElem, sigmoid, tanh],
    C5_recompute_equiv (fun x : ℚ => x) 1 0 (fun _ => 2) (fun _ => 0)
      (fun _ => 1) (fun _ => 3) (fun _ => 4) (fun _ => 5) (fun _ => 6)
      0 0 (by norm_num [LSTMUnitElem, sigmoid, tanh])⟩

/-- Claim C6: both kernels decide validity for sequence n by the identical
predicate t < seqLengths[n], a pure function of t and seqLengths[n] only,
applied uniformly to every feature position d; t = seqLengths[n] - 1
yields the full computation and t = seqLengths[n] yields the frozen
branch, in both kernels. -/
theorem C6_mask_predicate {T : Type} [Field T] (e : T → T) (D : Nat)
    (C_prev X : Nat → T) (seqLengths : Nat → Int)
    (C H C_diff H_diff : Nat → T) (n d : Nat) :
    (∀ t : Int, LSTMUnitElem e D t C_prev X seqLengths n d =
      if t < seqLengths n then
        (sigmoid e (X (4 * D * n + (2 * D + d))) *
            tanh e (sigmoid e (X (4 * D * n + (1 * D + d))) *
                C_prev (D * n + d) +
              sigmoid e (X (4 * D * n + d)) *
                tanh e (X (4 * D * n + (3 * D + d)))),
          sigmoid e (X (4 * D * n + (1 * D + d))) * C_prev (D * n + d) +
            sigmoid e (X (4 * D * n + d)) *
              tanh e (X (4 * D * n + (3 * D + d))))
      else (0, C_prev (D * n + d))) ∧
    (∀ t : Int,
      LSTMUnitGradientElem e D t C_prev X seqLengths C H C_diff H_diff
          n d =
        if t < seqLengths n then
          LSTMUnitGradientElem e D (seqLengths n - 1) C_prev X seqLengths
            C H C_diff H_diff n d
        else (C_diff (D * n + d), 0, 0, 0, 0)) ∧
    LSTMUnitElem e D (seqLengths n - 1) C_prev X seqLengths n d =
      (sigmoid e (X (4 * D * n + (2 * D + d))) *
          tanh e (sigmoid e (X (4 * D * n + (1 * D + d))) *
              C_prev (D * n + d) +
            sigmoid e (X (4 * D * n + d)) *
              tanh e (X (4 * D * n + (3 * D + d)))),
        sigmoid e (X (4 * D * n + (1 * D + d))) * C_prev (D * n + d) +
          sigmoid e (X (4 * D * n + d)) *
            tanh e (X (4 * D * n + (3 * D + d)))) ∧
    LSTMUnitElem e D (seqLengths n) C_prev X seqLengths n d =
      (0, C_prev (D * n + d)) ∧
    LSTMUnitGradientElem e D (seqLengths n) C_prev X seqLengths C H
        C_diff H_diff n d = (C_diff (D * n + d), 0, 0, 0, 0) := by
  refine ⟨?_, ?_, ?_, ?_, ?_⟩
  · intro t
    by_cases hv : t < seqLengths n
    · rw [if_pos hv]
      exact LSTMUnitElem_valid e D t C_prev X seqLengths n d hv
    · rw [if_neg hv]
      exact LSTMUnitElem_frozen e D t C_prev X seqLengths n d hv
  · intro t
    by_cases hv : t < seqLengths n
    · rw [if_pos hv,
        LSTMUnitGradientElem_valid e D t C_prev X seqLengths C H C_diff
          H_diff n d hv,
        LSTMUnitGradientElem_valid e D (seqLengths n - 1) C_prev X
          seqLengths C H C_diff H_diff n d (by omega)]
    · rw [if_neg hv]
      exact LSTMUnitGradientElem_frozen e D t C_prev X seqLengths C H
        C_diff H_diff n d hv
  · exact LSTMUnitElem_valid e D (seqLengths n - 1) C_prev X seqLengths
      n d (by omega)
  · exact LSTMUnitElem_frozen e D (seqLengths n) C_prev X seqLengths
      n d (by omega)
  · exact LSTMUnitGradientElem_frozen e D (seqLengths n) C_prev X
      seqLengths C H C_diff H_diff n d (by omega)

/-- Claim C8: the outputs written for sequence n by both kernels depend
only on t and on sequence n's own slices of the input buffers; two
invocations whose inputs agree on sequence n's slices (C_prev, X,
seqLengths, and for the backward pass C, C_diff, H_diff — H is never
read) produce identical outputs for sequence n, whatever the other
sequences' slices hold. -/
theorem C8_per_sequence_isolation {T : Type} [Field T] (e : T → T)
    (D : Nat) (t : Int)
    (C_prev1 X1 : Nat → T) (seqLengths1 : Nat → Int)
    (C1 H1 C_diff1 H_diff1 : Nat → T)
    (C_prev2 X2 : Nat → T) (seqLengths2 : Nat → Int)
    (C2 H2 C_diff2 H_diff2 : Nat → T)
    (n d : Nat) (hd : d < D)
    (hCp : ∀ k, k < D → C_prev1 (D * n + k) = C_prev2 (D * n + k))
    (hX : ∀ k, k < 4 * D → X1 (4 * D * n + k) = X2 (4 * D * n + k))
    (hs : seqLengths1 n = seqLengths2 n)
    (hC : ∀ k, k < D → C1 (D * n + k) = C2 (D * n + k))
    (hCd : ∀ k, k < D → C_diff1 (D * n + k) = C_diff2 (D * n + k))
    (hHd : ∀ k, k < D → H_diff1 (D * n + k) = H_diff2 (D * n + k)) :
    LSTMUnitElem e D t C_prev1 X1 seqLengths1 n d =
      LSTMUnitElem e D t C_prev2 X2 seqLengths2 n d ∧
    LSTMUnitGradientElem e D t C_prev1 X1 seqLengths1 C1 H1 C_diff1
        H_diff1 n d =
      LSTMUnitGradientElem e D t C_prev2 X2 seqLengths2 C2 H2 C_diff2
        H_diff2 n d := by
  have eCp := hCp d hd
  have eX0 := hX d (by omega)
  have eX1 := hX (1 * D + d) (by omega)
  have eX2 := hX (2 * D + d) (by omega)
  have eX3 := hX (3 * D + d) (by omega)
  have eC := hC d hd
  have eCd := hCd d hd
  have eHd := hHd d hd
  by_cases hv : t < seqLengths1 n
  · have hv2 : t < seqLengths2 n := hs ▸ hv
    rw [LSTMUnitElem_valid e D t C_prev1 X1 seqLengths1 n d hv,
      LSTMUnitElem_valid e D t C_prev2 X2 seqLengths2 n d hv2,
      LSTMUnitGradientElem_valid e D t C_prev1 X1 seqLengths1 C1 H1
        C_diff1 H_diff1 n d hv,
      LSTMUnitGradientElem_valid e D t C_prev2 X2 seqLengths2 C2 H2
        C_diff2 H_diff2 n d hv2,
      eCp, eX0, eX1, eX2, eX3, eC, eCd, eHd]
    exact ⟨rfl, rfl⟩
  · have hv2 : ¬ t < seqLengths2 n := hs ▸ hv
    rw [LSTMUnitElem_frozen e D t C_prev1 X1 seqLengths1 n d hv,
      LSTMUnitElem_frozen e D t C_prev2 X2 seqLengths2 n d hv2,
      LSTMUnitGradientElem_frozen e D t C_prev1 X1 seqLengths1 C1 H1
        C_diff1 H_diff1 n d hv,
      LSTMUnitGradientElem_frozen e D t C_prev2 X2 seqLengths2 C2 H2
        C_diff2 H_diff2 n d hv2,
      eCp, eCd]
    exact ⟨rfl, rfl⟩

/-- Concrete instantiation of claim C8: two input families that agree on
sequence 0's slices but differ on every other index (and on H
everywhere) give identical sequence-0 outputs, discharging every
hypothesis. -/
theorem C8_per_sequence_isolation_witness :
    (0 : Nat) < 1 ∧
    (∀ k, k < 1 → (fun j => if j < 1 then (1 : ℚ) else 7) (1 * 0 + k) =
      (fun j => if j < 1 then (1 : ℚ) else 8) (1 * 0 + k)) ∧
    (∀ k, k < 4 * 1 →
      (fun j => if j < 4 then (2 : ℚ) else 7) (4 * 1 * 0 + k) =
      (fun j => if j < 4 then (2 : ℚ) else 8) (4 * 1 * 0 + k)) ∧
    ((fun m : Nat => if m = 0 then (1 : Int) else 5) 0 =
      (fun m : Nat => if m = 0 then (1 : Int) else 6) 0) ∧
    (∀ k, k < 1 → (fun j => if j < 1 then (3 : ℚ) else 7) (1 * 0 + k) =
      (fun j => if j < 1 then (3 : ℚ) else 8) (1 * 0 + k)) ∧
    (∀ k, k < 1 → (fun j => if j < 1 then (4 : ℚ) else 7) (1 * 0 + k) =
      (fun j => if j < 1 then (4 : ℚ) else 8) (1 * 0 + k)) ∧
    (∀ k, k < 1 → (fun j => if j < 1 then (5 : ℚ) else 7) (1 * 0 + k) =
      (fun j => if j < 1 then (5 : ℚ) else 8) (1 * 0 + k)) ∧
    (LSTMUnitElem (fun x : ℚ => x) 1 0
        (fun j => if j < 1 then (1 : ℚ) else 7)
        (fun j => if j < 4 then (2 : ℚ) else 7)
        (fun m => if m = 0 then (1 : Int) else 5) 0 0 =
      LSTMUnitElem (fun x : ℚ => x) 1 0
        (fun j => if j < 1 then (1 : ℚ) else 8)
        (fun j => if j < 4 then (2 : ℚ) else 8)
        (fun m => if m = 0 then (1 : Int) else 6) 0 0 ∧
    LSTMUnitGradientElem (fun x : ℚ => x) 1 0
        (fun j => if j < 1 then (1 : ℚ) else 7)
        (fun j => if j < 4 then (2 : ℚ) else 7)
        (fun m => if m = 0 then (1 : Int) else 5)
        (fun j => if j < 1 then (3 : ℚ) else 7) (fun _ => 11)
        (fun j => if j < 1 then (4 : ℚ) else 7)
        (fun j => if j < 1 then (5 : ℚ) else 7) 0 0 =
      LSTMUnitGradientElem (fun x : ℚ => x) 1 0
        (fun j => if j < 1 then (1 : ℚ) else 8)
        (fun j => if j < 4 then (2 : ℚ) else 8)
        (fun m => if m = 0 then (1 : Int) else 6)
        (fun j => if j < 1 then (3 : ℚ) else 8) (fun _ => 12)
        (fun j => if j < 1 then (4 : ℚ) else 8)
        (fun j => if j < 1 then (5 : ℚ) else 8) 0 0) :=
  ⟨by decide,
    by intro k hk; interval_cases k <;> norm_num,
    by intro k hk; interval_cases k <;> norm_num,
    by norm_num,
    by intro k hk; interval_cases k <;> norm_num,
    by intro k hk; interval_cases k <;> norm_num,
    by intro k hk; interval_cases k <;> norm_num,
    C8_per_sequence_isolation (fun x : ℚ => x) 1 0
      (fun j => if j < 1 then (1 : ℚ) else 7)
      (fun j => if j < 4 then (2 : ℚ) else 7)
      (fun m => if m = 0 then (1 : Int) else 5)
      (fun j => if j < 1 then (3 : ℚ) else 7) (fun _ => 11)
      (fun j => if j < 1 then (4 : ℚ) else 7)
      (fun j => if j < 1 then (5 : ℚ) else 7)
      (fun j => if j < 1 then (1 : ℚ) else 8)
      (fun j => if j < 4 then (2 : ℚ) else 8)
      (fun m => if m = 0 then (1 : Int) else 6)
      (fun j => if j < 1 then (3 : ℚ) else 8) (fun _ => 12)
      (fun j => if j < 1 then (4 : ℚ) else 8)
      (fun j => if j < 1 then (5 : ℚ) else 8)
      0 0 (by decide)
      (by intro k hk; interval_cases k <;> norm_num)
      (by intro k hk; interval_cases k <;> norm_num)
      (by norm_num)
      (by intro k hk; interval_cases k <;> norm_num)
      (by intro k hk; interval_cases k <;> norm_num)
      (by intro k hk; interval_cases k <;> norm_num)⟩

/-- Claim C5 as stated is false: the backward kernel does not recompute c
(it reads the cell-output input C[n][d], line 91 of the source), so its
outputs differ from the recompute-c variant at an input whose C buffer
does not hold the forward cell output: with all gate pre-activations 0,
C_prev = [0], C = [1], C_diff = [0], H_diff = [1] at a valid step, the
o_diff outputs disagree (tanh(1)/4 versus 0). -/
theorem C5_counterexample :
    LSTMUnitGradientElem Real.exp 1 0 (fun _ => (0 : ℝ)) (fun _ => 0)
        (fun _ => 1) (fun _ => 1) (fun _ => 0) (fun _ => 0) (fun _ => 1)
        0 0 ≠
      LSTMUnitGradientElemRecompute Real.exp 1 0 (fun _ => (0 : ℝ))
        (fun _ => 0) (fun _ => 1) (fun _ => 0) (fun _ => 1) 0 0 := by
  intro h
  have h4 := congrArg (fun p : ℝ × ℝ × ℝ × ℝ × ℝ => p.2.2.2.1) h
  norm_num [LSTMUnitGradientElem, LSTMUnitGradientElemRecompute, sigmoid,
    tanh, Real.exp_zero] at h4
  have hlt : Real.exp (-2) < 1 := by
    have h0 := Real.exp_lt_exp.mpr (show (-2 : ℝ) < 0 by norm_num)
    rwa [Real.exp_zero] at h0
  have hpos : (0 : ℝ) < 1 + Real.exp (-2) := by positivity
  have hne : (1 + Real.exp (-2)) ≠ 0 := ne_of_gt hpos
  field_simp at h4
  linarith
